import Mathlib

/-!
Verification of the account-scoped credential layer and the Google Contacts
operations of the google-workspace-mcp server.

Source-derived definitions embed `src/modules/contacts/types.ts` (the
`ContactsError` class), `contacts/scopes.ts` (the scope constants), the
`ContactsService` operation methods (getContacts, createContact,
updateContact, deleteContact, searchContacts together with
`handleContactError` and the inline catch of getContacts) and the five
contacts handler functions (handleGetContacts .. handleSearchContacts).

The credential core itself (`BaseGoogleService`: token store, token
refresher, scope validator, authenticated-client factory, error normalizer)
and the `AccountManager` are not among the available sources; the
definitions for them are modelled from the specification and say so in
their doc comments.  Collaborator behaviour seen by the ContactsService
(the outcome of `validateScopes`, of `getAuthenticatedClient` and of each
People-API call) is injected through an environment so that theorems
quantify over every possible collaborator outcome.
-/

namespace GWMcp

/- ## Scope constants, from contacts/scopes.ts -/

namespace CONTACTS_SCOPES

/-- `CONTACTS_SCOPES.READONLY` from contacts/scopes.ts. -/
def READONLY : String := "https://www.googleapis.com/auth/contacts.readonly"

/-- `CONTACTS_SCOPES.READWRITE` from contacts/scopes.ts (full read/write access). -/
def READWRITE : String := "https://www.googleapis.com/auth/contacts"

/-- `CONTACTS_SCOPES.OTHER_READONLY` from contacts/scopes.ts. -/
def OTHER_READONLY : String := "https://www.googleapis.com/auth/contacts.other.readonly"

/-- `CONTACTS_SCOPES.DIRECTORY_READONLY` from contacts/scopes.ts. -/
def DIRECTORY_READONLY : String := "https://www.googleapis.com/auth/directory.readonly"

end CONTACTS_SCOPES

/- ## The ContactsError class, from src/modules/contacts/types.ts -/

/-- Embedding of the `ContactsError` class: message, machine code and optional
details (the `name` field is the constant "ContactsError" and is omitted). -/
structure ContactsError where
  message : String
  code : String
  details : Option String
deriving DecidableEq, Repr

/- ## The error taxonomy of the credential core -/

/-- Modelled from the spec: the closed seven-kind taxonomy of the Error
Normalizer (spec section 7); the Error Normalizer itself lives in
`BaseGoogleService`, which is not among the available sources. -/
inductive ErrorKind where
  | NotAuthenticated
  | ReauthorizationRequired
  | InsufficientScope
  | TransientProviderError
  | IncompleteResponse
  | StorageError
  | UnknownError
deriving DecidableEq, Repr

/-- Modelled from the spec: the Normalized Error shape (kind, message,
optional machine code, optional remediation hint/URL) that crosses the
credential core boundary; `BaseGoogleService` is not among the sources. -/
structure NormalizedError where
  kind : ErrorKind
  message : String
  code : Option String
  remediationUrl : Option String
deriving DecidableEq, Repr

/-- The names of the seven kinds of the closed taxonomy of spec section 7. -/
def sevenKindNames : List String :=
  ["NotAuthenticated", "ReauthorizationRequired", "InsufficientScope",
   "TransientProviderError", "IncompleteResponse", "StorageError", "UnknownError"]

/- ## Token record and scope validation -/

/-- Modelled from the spec: the Token Record (spec section 3): access
credential, refresh credential, granted scope set, credential type tag,
absolute expiry timestamp (epoch ms) and last-refresh timestamp; the Token
Store implementation is not among the available sources. -/
structure TokenRecord where
  accessToken : String
  refreshToken : String
  scopes : List String
  tokenType : String
  expiry : Nat
  lastRefresh : Nat
deriving DecidableEq, Repr

/-- Result of a scope validation: ok, or insufficient with the missing scopes. -/
inductive ScopeCheck where
  | ok
  | insufficient (missing : List String)
deriving DecidableEq, Repr

/-- Modelled from the spec: the Scope Validator (spec section 4.3) compares the
granted scope set with the required scopes by set containment under verbatim
string membership — no prefix or hierarchy matching; on insufficiency it names
the missing scopes.  The validator implementation (`BaseGoogleService`) is not
among the available sources. -/
def validateScopeSet (granted required : List String) : ScopeCheck :=
  match required.filter (fun s => decide (s ∉ granted)) with
  | [] => .ok
  | missing => .insufficient missing

/- ## Token refresher -/

/-- Outcome of a refresh exchange with the provider token endpoint. -/
inductive RefreshOutcome where
  | success (newAccess : String) (newExpiry : Nat)
  | rejected
  | transientFailure
deriving DecidableEq, Repr

/-- Modelled from the spec: a token is expiring when its expiry timestamp is
within the safety margin of the current time, or already past (spec 4.2). -/
def expiring (now margin : Nat) (t : TokenRecord) : Bool :=
  t.expiry ≤ now + margin

/-- The record returned by ensureFresh together with the number of network
calls it performed and whether the store was written. -/
structure RefreshResult where
  record : TokenRecord
  networkCalls : Nat
  persisted : Bool
deriving DecidableEq, Repr

/-- Modelled from the spec: the Token Refresher ensureFresh (spec 4.2).  A
non-expiring token is returned unchanged with no network call; an expiring
token undergoes exactly one refresh exchange, producing a new access
credential, new expiry and updated last-refresh timestamp, persisted to the
store; a rejected exchange fails with ReauthorizationRequired carrying an
authorization URL, a transient network failure fails with
TransientProviderError.  The refresher (`AccountManager`) is not among the
available sources. -/
def ensureFresh (now margin : Nat) (exch : RefreshOutcome) (t : TokenRecord) :
    Except NormalizedError RefreshResult :=
  if expiring now margin t then
    match exch with
    | .success a e =>
        .ok { record := { t with accessToken := a, expiry := e, lastRefresh := now },
              networkCalls := 1, persisted := true }
    | .rejected =>
        .error { kind := .ReauthorizationRequired,
                 message := "Refresh credential rejected by provider",
                 code := none, remediationUrl := some "authorization-url" }
    | .transientFailure =>
        .error { kind := .TransientProviderError,
                 message := "Transient failure during refresh exchange",
                 code := none, remediationUrl := none }
  else
    .ok { record := t, networkCalls := 0, persisted := false }

/- ## Authenticated client factory -/

/-- Modelled from the spec: the Authenticated Client Factory getClient
(spec 4.4): load the token record (failing with NotAuthenticated if none),
run ensureFresh, validate scopes against the refreshed record, and only on
success invoke the client builder.  The builder is modelled as the identity
on the validated credential, so the returned handle records exactly the
token the builder was invoked with.  `BaseGoogleService.getAuthenticatedClient`
is not among the available sources. -/
def getClient (now margin : Nat) (store : Option TokenRecord)
    (exch : RefreshOutcome) (required : List String) :
    Except NormalizedError TokenRecord :=
  match store with
  | none =>
      .error { kind := .NotAuthenticated,
               message := "No token on record for account",
               code := none, remediationUrl := some "authorization-url" }
  | some t =>
      match ensureFresh now margin exch t with
      | .error e => .error e
      | .ok r =>
          match validateScopeSet r.record.scopes required with
          | .insufficient missing =>
              .error { kind := .InsufficientScope,
                       message := "Token missing required scopes",
                       code := none,
                       remediationUrl :=
                         some (String.intercalate " " (r.record.scopes ++ missing)) }
          | .ok => .ok r.record

/-- A sample stored token used to instantiate hypotheses at concrete inputs. -/
def sampleToken : TokenRecord :=
  { accessToken := "access-0", refreshToken := "refresh-0",
    scopes := [CONTACTS_SCOPES.READONLY], tokenType := "Bearer",
    expiry := 1000, lastRefresh := 0 }

/- ## C2: scope containment -/

/-- C2: for every token scope set and required set, validation succeeds iff
the required scopes are contained in the granted scopes under verbatim string
membership, and on failure the insufficiency result names exactly the scopes
that are missing. -/
theorem validateScopeSet_containment (granted required : List String) :
    (validateScopeSet granted required = .ok ↔ ∀ s ∈ required, s ∈ granted) ∧
    (∀ m, validateScopeSet granted required = .insufficient m →
      ∀ s, s ∈ m ↔ (s ∈ required ∧ s ∉ granted)) := by
  unfold validateScopeSet
  cases hf : required.filter (fun s => decide (s ∉ granted)) with
  | nil =>
      refine ⟨⟨fun _ s hs => ?_, fun _ => rfl⟩, fun m hm => nomatch hm⟩
      by_contra hns
      have hmem : s ∈ required.filter (fun s => decide (s ∉ granted)) :=
        List.mem_filter.mpr ⟨hs, by simpa using hns⟩
      rw [hf] at hmem
      exact absurd hmem (List.not_mem_nil s)
  | cons a as =>
      refine ⟨⟨fun h => (nomatch h), fun hsub => ?_⟩, fun m hm s => ?_⟩
      · have ha : a ∈ required.filter (fun s => decide (s ∉ granted)) := by
          rw [hf]; exact List.mem_cons_self a as
        have ha2 := List.mem_filter.mp ha
        exact absurd (hsub a ha2.1) (by simpa using ha2.2)
      · injection hm with hm2
        subst hm2
        rw [← hf]
        constructor
        · intro hs
          have h2 := List.mem_filter.mp hs
          exact ⟨h2.1, by simpa using h2.2⟩
        · intro hs
          exact List.mem_filter.mpr ⟨hs.1, by simpa using hs.2⟩

/-- Witness for C2 at a concrete granted/required pair: the token grants only
the read-only contacts scope, the operation requires read-only and read/write,
and validation names exactly the read/write scope as missing. -/
theorem validateScopeSet_containment_witness :
    (validateScopeSet [CONTACTS_SCOPES.READONLY]
        [CONTACTS_SCOPES.READONLY, CONTACTS_SCOPES.READWRITE] =
      .insufficient [CONTACTS_SCOPES.READWRITE]) ∧
    (∀ s, s ∈ [CONTACTS_SCOPES.READWRITE] ↔
      (s ∈ [CONTACTS_SCOPES.READONLY, CONTACTS_SCOPES.READWRITE] ∧
        s ∉ [CONTACTS_SCOPES.READONLY])) :=
  ⟨by decide,
   fun s =>
     (validateScopeSet_containment [CONTACTS_SCOPES.READONLY]
        [CONTACTS_SCOPES.READONLY, CONTACTS_SCOPES.READWRITE]).2
       [CONTACTS_SCOPES.READWRITE] (by decide) s⟩

/- ## C7: no premature refresh -/

/-- C7: for every token record whose expiry timestamp is more than the safety
margin away from the current time, ensureFresh performs zero network calls and
returns the input record unchanged. -/
theorem ensureFresh_no_premature_refresh (now margin : Nat)
    (exch : RefreshOutcome) (t : TokenRecord) (h : now + margin < t.expiry) :
    ensureFresh now margin exch t =
      .ok { record := t, networkCalls := 0, persisted := false } := by
  unfold ensureFresh expiring
  simp [Nat.not_le.mpr h]

/-- Witness for C7: a token expiring at 1000 inspected at time 100 with a
60-unit margin is returned unchanged, with zero network calls, even when the
(unused) exchange would have been rejected. -/
theorem ensureFresh_no_premature_refresh_witness :
    ensureFresh 100 60 .rejected sampleToken =
      .ok { record := sampleToken, networkCalls := 0, persisted := false } :=
  ensureFresh_no_premature_refresh 100 60 .rejected sampleToken (by decide)

/- ## The ContactsService, from services/contacts (source file) -/

/-- JavaScript falsiness of an optional string parameter: absent covers both
`undefined` and the empty string, matching checks such as `if (!personFields)`. -/
def strAbsent : Option String → Bool
  | none => true
  | some s => s == ""

/-- The universe of values that can be thrown inside a ContactsService try
block.  `google` is a `GoogleServiceError` (surface: message plus optional
`data.code` / `data.details`); `jsError` is any other value that is
`instanceof Error`; `contactsErr` is a thrown `ContactsError`, which in
JavaScript is `instanceof Error` but not `instanceof GoogleServiceError`;
`otherValue` is a non-Error throw. -/
inductive Thrown where
  | google (message : String) (dataCode : Option String) (dataDetails : Option String)
  | jsError (message : String)
  | contactsErr (c : ContactsError)
  | otherValue
deriving DecidableEq, Repr

/-- Embedding of `ContactsService.handleContactError`: a GoogleServiceError
keeps its message (falling back to the supplied message when falsy) and its
`data.code` (falling back to GOOGLE_SERVICE_ERROR when falsy) and details;
any other Error — including a ContactsError thrown earlier in the same try
block — becomes UNKNOWN_API_ERROR with the messages concatenated; a non-Error
throw becomes UNKNOWN_INTERNAL_ERROR. -/
def handleContactError : Thrown → String → ContactsError
  | .google m c d, message =>
      { message := if m == "" then message else m,
        code := match c with
                | some code => if code == "" then "GOOGLE_SERVICE_ERROR" else code
                | none => "GOOGLE_SERVICE_ERROR",
        details := d }
  | .jsError m, message =>
      { message := message ++ ": " ++ m, code := "UNKNOWN_API_ERROR", details := none }
  | .contactsErr c, message =>
      { message := message ++ ": " ++ c.message, code := "UNKNOWN_API_ERROR", details := none }
  | .otherValue, message =>
      { message := message ++ " due to an unknown issue",
        code := "UNKNOWN_INTERNAL_ERROR", details := none }

/-- Embedding of the inline catch of `ContactsService.getContacts`, which uses
its own fallback messages instead of calling handleContactError. -/
def getContactsCatch : Thrown → ContactsError
  | .google m c d =>
      { message := if m == "" then "Error retrieving contacts" else m,
        code := match c with
                | some code => if code == "" then "GOOGLE_SERVICE_ERROR" else code
                | none => "GOOGLE_SERVICE_ERROR",
        details := d }
  | .jsError m =>
      { message := "Failed to retrieve contacts: " ++ m,
        code := "UNKNOWN_API_ERROR", details := none }
  | .contactsErr c =>
      { message := "Failed to retrieve contacts: " ++ c.message,
        code := "UNKNOWN_API_ERROR", details := none }
  | .otherValue =>
      { message := "Failed to retrieve contacts due to an unknown issue",
        code := "UNKNOWN_INTERNAL_ERROR", details := none }

/-- Outcome of one awaited collaborator step inside a try block: a value, or a
thrown failure. -/
inductive StepOutcome (α : Type) where
  | ok (a : α)
  | thrown (t : Thrown)

/-- The `response.data` of People-API createContact/updateContact: the fields
the service inspects (`resourceName` may be absent or empty, `etag` falsy is
replaced by the empty string). -/
structure PersonResponse where
  resourceName : Option String
  etag : Option String
deriving DecidableEq, Repr

/-- Collaborator behaviour observed by one ContactsService invocation: the
outcome of `this.validateScopes` per requested scope list, of
`getAuthenticatedClient` (via getPeopleClient), and of each People-API call. -/
structure SvcEnv where
  validateScopesStep : List String → StepOutcome Unit
  authStep : StepOutcome Unit
  listStep : StepOutcome String
  personStep : StepOutcome PersonResponse
  deleteStep : StepOutcome Unit
  searchStep : StepOutcome String

/-- What can cross the ContactsService boundary on failure: a ContactsError
produced by the service, or — had some path failed to normalize — a raw thrown
value.  The embedded operations are proved never to produce `raw`. -/
inductive SvcEscape where
  | norm (c : ContactsError)
  | raw (t : Thrown)
deriving DecidableEq, Repr

/-- Whether an escaping failure is the normalized ContactsError shape. -/
def SvcEscape.isNorm : SvcEscape → Bool
  | .norm _ => true
  | .raw _ => false

/-- Observable events of one operation, in order: a `validateScopes` call with
the scopes it was asked to check, a `getAuthenticatedClient` call, a People-API
call, and (at the handler layer) a token-renewal refresh. -/
inductive Ev where
  | scopeValidate (scopes : List String)
  | getClientCall
  | apiCall
  | refreshCall
deriving DecidableEq, Repr

/-- `GetContactsParams` from contacts/types.ts; every field is optional at
run time (the service revalidates presence). -/
structure GetContactsParams where
  email : Option String
  pageSize : Option Nat
  pageToken : Option String
  personFields : Option String
deriving DecidableEq, Repr

/-- The contact payload of create/update requests; its field structure is not
inspected by the credential layer, so it is kept opaque. -/
structure ContactPayload where
  body : String
deriving DecidableEq, Repr

/-- `CreateContactParams` from contacts/types.ts. -/
structure CreateContactParams where
  email : Option String
  contact : Option ContactPayload
deriving DecidableEq, Repr

/-- `UpdateContactParams` from contacts/types.ts. -/
structure UpdateContactParams where
  email : Option String
  resourceName : Option String
  contact : Option ContactPayload
  updatePersonFields : Option String
deriving DecidableEq, Repr

/-- `DeleteContactParams` from contacts/types.ts. -/
structure DeleteContactParams where
  email : Option String
  resourceName : Option String
deriving DecidableEq, Repr

/-- `SearchContactsParams` from contacts/types.ts. -/
structure SearchContactsParams where
  email : Option String
  query : Option String
  pageSize : Option Nat
  readMask : Option String
deriving DecidableEq, Repr

/-- `CreateContactResponse` / `UpdateContactResponse` from contacts/types.ts:
resourceName, etag (falsy replaced by the empty string) and the full response
data. -/
structure CreateContactResponse where
  resourceName : String
  etag : String
  contact : PersonResponse
deriving DecidableEq, Repr

/-- The `response.data.etag || ''` coercion of the service. -/
def etagOrEmpty : Option String → String
  | some e => if e == "" then "" else e
  | none => ""

/-- Embedding of `ContactsService.getContacts`: missing personFields fails with
INVALID_PARAMS before anything else; otherwise validateScopes with the
read-only contacts scope, then the authenticated People client, then
`people.connections.list`; any throw inside the try block is normalized by the
inline catch.  The second component is the trace of observable events. -/
def svcGetContacts (env : SvcEnv) (p : GetContactsParams) :
    Except SvcEscape String × List Ev :=
  if strAbsent p.personFields then
    (.error (.norm { message := "Missing required parameter: personFields",
                     code := "INVALID_PARAMS",
                     details := some "Specify the fields to retrieve (e.g. \"names,emailAddresses\")" }),
     [])
  else
    match env.validateScopesStep [CONTACTS_SCOPES.READONLY] with
    | .thrown t =>
        (.error (.norm (getContactsCatch t)),
         [.scopeValidate [CONTACTS_SCOPES.READONLY]])
    | .ok _ =>
        match env.authStep with
        | .thrown t =>
            (.error (.norm (getContactsCatch t)),
             [.scopeValidate [CONTACTS_SCOPES.READONLY], .getClientCall])
        | .ok _ =>
            match env.listStep with
            | .thrown t =>
                (.error (.norm (getContactsCatch t)),
                 [.scopeValidate [CONTACTS_SCOPES.READONLY], .getClientCall, .apiCall])
            | .ok data =>
                (.ok data,
                 [.scopeValidate [CONTACTS_SCOPES.READONLY], .getClientCall, .apiCall])

/-- Embedding of `ContactsService.createContact`: missing contact fails with
INVALID_PARAMS; otherwise validateScopes with the read/write contacts scope,
the authenticated client, then `people.createContact`; a 2xx response without
a resourceName raises the CREATE_ERROR ContactsError inside the try block,
which the catch then routes through handleContactError. -/
def svcCreateContact (env : SvcEnv) (p : CreateContactParams) :
    Except SvcEscape CreateContactResponse × List Ev :=
  if p.contact.isNone then
    (.error (.norm { message := "Missing required parameter: contact",
                     code := "INVALID_PARAMS",
                     details := some "Contact data is required to create a contact" }),
     [])
  else
    match env.validateScopesStep [CONTACTS_SCOPES.READWRITE] with
    | .thrown t =>
        (.error (.norm (handleContactError t "Failed to create contact")),
         [.scopeValidate [CONTACTS_SCOPES.READWRITE]])
    | .ok _ =>
        match env.authStep with
        | .thrown t =>
            (.error (.norm (handleContactError t "Failed to create contact")),
             [.scopeValidate [CONTACTS_SCOPES.READWRITE], .getClientCall])
        | .ok _ =>
            match env.personStep with
            | .thrown t =>
                (.error (.norm (handleContactError t "Failed to create contact")),
                 [.scopeValidate [CONTACTS_SCOPES.READWRITE], .getClientCall, .apiCall])
            | .ok r =>
                if strAbsent r.resourceName then
                  (.error (.norm (handleContactError
                      (.contactsErr { message := "Failed to create contact",
                                      code := "CREATE_ERROR",
                                      details := some "Contact creation response was incomplete" })
                      "Failed to create contact")),
                   [.scopeValidate [CONTACTS_SCOPES.READWRITE], .getClientCall, .apiCall])
                else
                  (.ok { resourceName := r.resourceName.getD "",
                         etag := etagOrEmpty r.etag,
                         contact := r },
                   [.scopeValidate [CONTACTS_SCOPES.READWRITE], .getClientCall, .apiCall])

/-- Embedding of `ContactsService.updateContact`: missing resourceName or
contact fails with INVALID_PARAMS; otherwise read/write scope validation, the
authenticated client, then `people.updateContact`; a 2xx response without a
resourceName raises the UPDATE_ERROR ContactsError inside the try block, which
the catch routes through handleContactError. -/
def svcUpdateContact (env : SvcEnv) (p : UpdateContactParams) :
    Except SvcEscape CreateContactResponse × List Ev :=
  if strAbsent p.resourceName || p.contact.isNone then
    (.error (.norm { message := "Missing required parameters: resourceName and contact",
                     code := "INVALID_PARAMS",
                     details := some "Both resourceName and contact data are required to update a contact" }),
     [])
  else
    match env.validateScopesStep [CONTACTS_SCOPES.READWRITE] with
    | .thrown t =>
        (.error (.norm (handleContactError t "Failed to update contact")),
         [.scopeValidate [CONTACTS_SCOPES.READWRITE]])
    | .ok _ =>
        match env.authStep with
        | .thrown t =>
            (.error (.norm (handleContactError t "Failed to update contact")),
             [.scopeValidate [CONTACTS_SCOPES.READWRITE], .getClientCall])
        | .ok _ =>
            match env.personStep with
            | .thrown t =>
                (.error (.norm (handleContactError t "Failed to update contact")),
                 [.scopeValidate [CONTACTS_SCOPES.READWRITE], .getClientCall, .apiCall])
            | .ok r =>
                if strAbsent r.resourceName then
                  (.error (.norm (handleContactError
                      (.contactsErr { message := "Failed to update contact",
                                      code := "UPDATE_ERROR",
                                      details := some "Contact update response was incomplete" })
                      "Failed to update contact")),
                   [.scopeValidate [CONTACTS_SCOPES.READWRITE], .getClientCall, .apiCall])
                else
                  (.ok { resourceName := r.resourceName.getD "",
                         etag := etagOrEmpty r.etag,
                         contact := r },
                   [.scopeValidate [CONTACTS_SCOPES.READWRITE], .getClientCall, .apiCall])

/-- Embedding of `ContactsService.deleteContact`: missing resourceName fails
with INVALID_PARAMS; otherwise read/write scope validation, the authenticated
client, then `people.deleteContact` (no data on success). -/
def svcDeleteContact (env : SvcEnv) (p : DeleteContactParams) :
    Except SvcEscape Unit × List Ev :=
  if strAbsent p.resourceName then
    (.error (.norm { message := "Missing required parameter: resourceName",
                     code := "INVALID_PARAMS",
                     details := some "resourceName is required to delete a contact" }),
     [])
  else
    match env.validateScopesStep [CONTACTS_SCOPES.READWRITE] with
    | .thrown t =>
        (.error (.norm (handleContactError t "Failed to delete contact")),
         [.scopeValidate [CONTACTS_SCOPES.READWRITE]])
    | .ok _ =>
        match env.authStep with
        | .thrown t =>
            (.error (.norm (handleContactError t "Failed to delete contact")),
             [.scopeValidate [CONTACTS_SCOPES.READWRITE], .getClientCall])
        | .ok _ =>
            match env.deleteStep with
            | .thrown t =>
                (.error (.norm (handleContactError t "Failed to delete contact")),
                 [.scopeValidate [CONTACTS_SCOPES.READWRITE], .getClientCall, .apiCall])
            | .ok _ =>
                (.ok (),
                 [.scopeValidate [CONTACTS_SCOPES.READWRITE], .getClientCall, .apiCall])

/-- Embedding of `ContactsService.searchContacts`: missing query fails with
INVALID_PARAMS; otherwise read-only scope validation, the authenticated
client, then `people.searchContacts`. -/
def svcSearchContacts (env : SvcEnv) (p : SearchContactsParams) :
    Except SvcEscape String × List Ev :=
  if strAbsent p.query then
    (.error (.norm { message := "Missing required parameter: query",
                     code := "INVALID_PARAMS",
                     details := some "Search query is required" }),
     [])
  else
    match env.validateScopesStep [CONTACTS_SCOPES.READONLY] with
    | .thrown t =>
        (.error (.norm (handleContactError t "Failed to search contacts")),
         [.scopeValidate [CONTACTS_SCOPES.READONLY]])
    | .ok _ =>
        match env.authStep with
        | .thrown t =>
            (.error (.norm (handleContactError t "Failed to search contacts")),
             [.scopeValidate [CONTACTS_SCOPES.READONLY], .getClientCall])
        | .ok _ =>
            match env.searchStep with
            | .thrown t =>
                (.error (.norm (handleContactError t "Failed to search contacts")),
                 [.scopeValidate [CONTACTS_SCOPES.READONLY], .getClientCall, .apiCall])
            | .ok data =>
                (.ok data,
                 [.scopeValidate [CONTACTS_SCOPES.READONLY], .getClientCall, .apiCall])

/- ## The contacts handlers, from the handlers source file -/

/-- The MCP error codes the handlers use. -/
inductive McpCode where
  | invalidParams
  | internalError
deriving DecidableEq, Repr

/-- Embedding of `McpError` as thrown by the handlers: code, message, and the
optional data payload (`{ code, details }`) attached when wrapping a
ContactsError. -/
structure McpError where
  code : McpCode
  message : String
  dataCode : Option String
  dataDetails : Option String
deriving DecidableEq, Repr

/-- Modelled from the spec: behaviour of `accountManager.withTokenRenewal`
(the AccountManager is not among the available sources): the token for the
account is either already fresh (no refresh), refreshed through one exchange,
or renewal fails with an auth McpError before the wrapped callback runs. -/
inductive RenewalBehavior where
  | fresh
  | refreshed
  | failed (e : McpError)

/-- Events produced by the token-renewal wrapper. -/
def renewalTrace : RenewalBehavior → List Ev
  | .fresh => []
  | .refreshed => [.refreshCall]
  | .failed _ => [.refreshCall]

/-- Collaborator behaviour observed by one handler invocation: the external
`validateEmail` predicate (the account utilities are not among the sources;
modelled from the spec as syntactic email validation that throws an
invalid-params McpError), the renewal behaviour, and the service environment. -/
structure HandlerEnv where
  emailValid : String → Bool
  renewal : RenewalBehavior
  svc : SvcEnv

/-- Embedding of the catch block shared by all five handlers: a ContactsError
becomes an internal McpError with message prefix "Contacts API Error: " and
the code/details in the data payload; an McpError is rethrown; anything else
becomes an internal McpError with the handler-specific failure message.  A
raw GoogleServiceError is `instanceof McpError` and would be rethrown; a raw
ContactsError value takes the first branch. -/
def handlerWrap (opMsg : String) : SvcEscape → McpError
  | .norm c =>
      { code := .internalError, message := "Contacts API Error: " ++ c.message,
        dataCode := some c.code, dataDetails := c.details }
  | .raw (.contactsErr c) =>
      { code := .internalError, message := "Contacts API Error: " ++ c.message,
        dataCode := some c.code, dataDetails := c.details }
  | .raw (.google m c d) =>
      { code := .internalError, message := m, dataCode := c, dataDetails := d }
  | .raw (.jsError m) =>
      { code := .internalError, message := opMsg ++ ": " ++ m,
        dataCode := none, dataDetails := none }
  | .raw .otherValue =>
      { code := .internalError, message := opMsg ++ ": Unknown error",
        dataCode := none, dataDetails := none }

/-- The invalid-params McpError thrown when the email parameter is absent. -/
def emailRequiredErr : McpError :=
  { code := .invalidParams, message := "Email address is required",
    dataCode := none, dataDetails := none }

/-- Modelled from the spec: the McpError thrown by the external validateEmail
when the account identity is not a syntactically valid email. -/
def invalidEmailErr : McpError :=
  { code := .invalidParams, message := "Invalid email address",
    dataCode := none, dataDetails := none }

/-- Embedding of `handleGetContacts`: email presence, email validity and
personFields presence are checked before token renewal and before the service
is invoked; the service result is then mapped by the shared catch block. -/
def handleGetContacts (env : HandlerEnv) (p : GetContactsParams) :
    Except McpError String × List Ev :=
  if strAbsent p.email then (.error emailRequiredErr, [])
  else if !(env.emailValid (p.email.getD "")) then (.error invalidEmailErr, [])
  else if strAbsent p.personFields then
    (.error { code := .invalidParams,
              message := "personFields parameter is required (e.g. \"names,emailAddresses\")",
              dataCode := none, dataDetails := none }, [])
  else
    match env.renewal with
    | .failed e => (.error e, renewalTrace (.failed e))
    | rb =>
        match svcGetContacts env.svc p with
        | (.ok v, tr) => (.ok v, renewalTrace rb ++ tr)
        | (.error e, tr) =>
            (.error (handlerWrap "Failed to get contacts" e), renewalTrace rb ++ tr)

/-- Embedding of `handleCreateContact`. -/
def handleCreateContact (env : HandlerEnv) (p : CreateContactParams) :
    Except McpError CreateContactResponse × List Ev :=
  if strAbsent p.email then (.error emailRequiredErr, [])
  else if !(env.emailValid (p.email.getD "")) then (.error invalidEmailErr, [])
  else if p.contact.isNone then
    (.error { code := .invalidParams, message := "Contact data is required",
              dataCode := none, dataDetails := none }, [])
  else
    match env.renewal with
    | .failed e => (.error e, renewalTrace (.failed e))
    | rb =>
        match svcCreateContact env.svc p with
        | (.ok v, tr) => (.ok v, renewalTrace rb ++ tr)
        | (.error e, tr) =>
            (.error (handlerWrap "Failed to create contact" e), renewalTrace rb ++ tr)

/-- Embedding of `handleUpdateContact`. -/
def handleUpdateContact (env : HandlerEnv) (p : UpdateContactParams) :
    Except McpError CreateContactResponse × List Ev :=
  if strAbsent p.email then (.error emailRequiredErr, [])
  else if !(env.emailValid (p.email.getD "")) then (.error invalidEmailErr, [])
  else if strAbsent p.resourceName then
    (.error { code := .invalidParams, message := "Resource name is required",
              dataCode := none, dataDetails := none }, [])
  else if p.contact.isNone then
    (.error { code := .invalidParams, message := "Contact data is required",
              dataCode := none, dataDetails := none }, [])
  else
    match env.renewal with
    | .failed e => (.error e, renewalTrace (.failed e))
    | rb =>
        match svcUpdateContact env.svc p with
        | (.ok v, tr) => (.ok v, renewalTrace rb ++ tr)
        | (.error e, tr) =>
            (.error (handlerWrap "Failed to update contact" e), renewalTrace rb ++ tr)

/-- Embedding of `handleDeleteContact`. -/
def handleDeleteContact (env : HandlerEnv) (p : DeleteContactParams) :
    Except McpError (Bool × String) × List Ev :=
  if strAbsent p.email then (.error emailRequiredErr, [])
  else if !(env.emailValid (p.email.getD "")) then (.error invalidEmailErr, [])
  else if strAbsent p.resourceName then
    (.error { code := .invalidParams, message := "Resource name is required",
              dataCode := none, dataDetails := none }, [])
  else
    match env.renewal with
    | .failed e => (.error e, renewalTrace (.failed e))
    | rb =>
        match svcDeleteContact env.svc p with
        | (.ok _, tr) =>
            (.ok (true, "Contact " ++ p.resourceName.getD "" ++ " deleted successfully"),
             renewalTrace rb ++ tr)
        | (.error e, tr) =>
            (.error (handlerWrap "Failed to delete contact" e), renewalTrace rb ++ tr)

/-- Embedding of `handleSearchContacts`. -/
def handleSearchContacts (env : HandlerEnv) (p : SearchContactsParams) :
    Except McpError String × List Ev :=
  if strAbsent p.email then (.error emailRequiredErr, [])
  else if !(env.emailValid (p.email.getD "")) then (.error invalidEmailErr, [])
  else if strAbsent p.query then
    (.error { code := .invalidParams, message := "Search query is required",
              dataCode := none, dataDetails := none }, [])
  else
    match env.renewal with
    | .failed e => (.error e, renewalTrace (.failed e))
    | rb =>
        match svcSearchContacts env.svc p with
        | (.ok v, tr) => (.ok v, renewalTrace rb ++ tr)
        | (.error e, tr) =>
            (.error (handlerWrap "Failed to search contacts" e), renewalTrace rb ++ tr)

/- ## Sample environments and parameters for concrete instantiations -/

/-- A benign collaborator environment in which every step succeeds. -/
def envAllOk : SvcEnv :=
  { validateScopesStep := fun _ => .ok (),
    authStep := .ok (),
    listStep := .ok "connections",
    personStep := .ok { resourceName := some "people/c1", etag := some "etag-1" },
    deleteStep := .ok (),
    searchStep := .ok "results" }

/-- An environment whose scope validation throws a non-Error value. -/
def envValidateThrows : SvcEnv :=
  { envAllOk with validateScopesStep := fun _ => .thrown .otherValue }

/-- An environment whose People-API calls throw. -/
def envApiThrows : SvcEnv :=
  { envAllOk with
    listStep := .thrown (.jsError "socket hang up"),
    personStep := .thrown (.google "Rate limit exceeded" (some "429") none),
    deleteStep := .thrown .otherValue,
    searchStep := .thrown (.jsError "request timeout") }

/-- An environment whose create/update call reports success without a
resourceName. -/
def envCreateIncomplete : SvcEnv :=
  { envAllOk with personStep := .ok { resourceName := none, etag := some "etag-x" } }

/-- Well-formed getContacts parameters. -/
def pGetOk : GetContactsParams :=
  { email := some "user@example.com", pageSize := none, pageToken := none,
    personFields := some "names,emailAddresses" }

/-- getContacts parameters with personFields absent. -/
def pMissingPersonFields : GetContactsParams :=
  { email := some "user@example.com", pageSize := none, pageToken := none,
    personFields := none }

/-- Well-formed createContact parameters. -/
def pCreateOk : CreateContactParams :=
  { email := some "user@example.com", contact := some { body := "contact-body" } }

/-- Well-formed updateContact parameters. -/
def pUpdateOk : UpdateContactParams :=
  { email := some "user@example.com", resourceName := some "people/c1",
    contact := some { body := "contact-body" }, updatePersonFields := none }

/- ## Trace shapes of the five operations -/

/-- The possible event traces of one service operation that validates the
required scope list `req` first: nothing yet, the validation call alone, then
the client construction, then the provider call — in that order only. -/
def traceShape (req : List String) (tr : List Ev) : Prop :=
  tr = [] ∨ tr = [.scopeValidate req] ∨
    tr = [.scopeValidate req, .getClientCall] ∨
    tr = [.scopeValidate req, .getClientCall, .apiCall]

theorem svcGetContacts_trace (env : SvcEnv) (p : GetContactsParams) :
    traceShape [CONTACTS_SCOPES.READONLY] (svcGetContacts env p).2 := by
  unfold svcGetContacts
  cases hp : strAbsent p.personFields <;>
  cases hv : env.validateScopesStep [CONTACTS_SCOPES.READONLY] <;>
  cases ha : env.authStep <;>
  cases hl : env.listStep <;>
  simp [traceShape]

theorem svcSearchContacts_trace (env : SvcEnv) (p : SearchContactsParams) :
    traceShape [CONTACTS_SCOPES.READONLY] (svcSearchContacts env p).2 := by
  unfold svcSearchContacts
  cases hp : strAbsent p.query <;>
  cases hv : env.validateScopesStep [CONTACTS_SCOPES.READONLY] <;>
  cases ha : env.authStep <;>
  cases hl : env.searchStep <;>
  simp [traceShape]

theorem svcCreateContact_trace (env : SvcEnv) (p : CreateContactParams) :
    traceShape [CONTACTS_SCOPES.READWRITE] (svcCreateContact env p).2 := by
  unfold svcCreateContact
  cases hc : p.contact.isNone <;>
  cases hv : env.validateScopesStep [CONTACTS_SCOPES.READWRITE] <;>
  cases ha : env.authStep <;>
  cases hpr : env.personStep <;>
  simp [traceShape, apply_ite]

theorem svcUpdateContact_trace (env : SvcEnv) (p : UpdateContactParams) :
    traceShape [CONTACTS_SCOPES.READWRITE] (svcUpdateContact env p).2 := by
  unfold svcUpdateContact
  cases hc : strAbsent p.resourceName || p.contact.isNone <;>
  cases hv : env.validateScopesStep [CONTACTS_SCOPES.READWRITE] <;>
  cases ha : env.authStep <;>
  cases hpr : env.personStep <;>
  simp [traceShape, apply_ite]

theorem svcDeleteContact_trace (env : SvcEnv) (p : DeleteContactParams) :
    traceShape [CONTACTS_SCOPES.READWRITE] (svcDeleteContact env p).2 := by
  unfold svcDeleteContact
  cases hp : strAbsent p.resourceName <;>
  cases hv : env.validateScopesStep [CONTACTS_SCOPES.READWRITE] <;>
  cases ha : env.authStep <;>
  cases hl : env.deleteStep <;>
  simp [traceShape]

/-- C3: under every collaborator behaviour and every parameter value, the read
operations getContacts and searchContacts only ever ask scope validation for
exactly the read-only contacts scope, and the write operations createContact,
updateContact and deleteContact only ever ask for exactly the full read/write
contacts scope; in every possible trace the validation call comes before the
client construction, which comes before the provider call. -/
theorem contacts_ops_declared_scopes (env : SvcEnv)
    (p1 : GetContactsParams) (p2 : CreateContactParams) (p3 : UpdateContactParams)
    (p4 : DeleteContactParams) (p5 : SearchContactsParams) :
    traceShape [CONTACTS_SCOPES.READONLY] (svcGetContacts env p1).2 ∧
    traceShape [CONTACTS_SCOPES.READONLY] (svcSearchContacts env p5).2 ∧
    traceShape [CONTACTS_SCOPES.READWRITE] (svcCreateContact env p2).2 ∧
    traceShape [CONTACTS_SCOPES.READWRITE] (svcUpdateContact env p3).2 ∧
    traceShape [CONTACTS_SCOPES.READWRITE] (svcDeleteContact env p4).2 :=
  ⟨svcGetContacts_trace env p1, svcSearchContacts_trace env p5,
   svcCreateContact_trace env p2, svcUpdateContact_trace env p3,
   svcDeleteContact_trace env p4⟩

/- ## C4: scope validation before client construction -/

theorem svcGetContacts_validate_fail (env : SvcEnv) (p : GetContactsParams)
    (t : Thrown) (h : env.validateScopesStep [CONTACTS_SCOPES.READONLY] = .thrown t) :
    Ev.getClientCall ∉ (svcGetContacts env p).2 ∧ Ev.apiCall ∉ (svcGetContacts env p).2 := by
  unfold svcGetContacts
  cases hp : strAbsent p.personFields <;> simp [h]

theorem svcSearchContacts_validate_fail (env : SvcEnv) (p : SearchContactsParams)
    (t : Thrown) (h : env.validateScopesStep [CONTACTS_SCOPES.READONLY] = .thrown t) :
    Ev.getClientCall ∉ (svcSearchContacts env p).2 ∧ Ev.apiCall ∉ (svcSearchContacts env p).2 := by
  unfold svcSearchContacts
  cases hp : strAbsent p.query <;> simp [h]

theorem svcCreateContact_validate_fail (env : SvcEnv) (p : CreateContactParams)
    (t : Thrown) (h : env.validateScopesStep [CONTACTS_SCOPES.READWRITE] = .thrown t) :
    Ev.getClientCall ∉ (svcCreateContact env p).2 ∧ Ev.apiCall ∉ (svcCreateContact env p).2 := by
  unfold svcCreateContact
  cases hp : p.contact.isNone <;> simp [h]

theorem svcUpdateContact_validate_fail (env : SvcEnv) (p : UpdateContactParams)
    (t : Thrown) (h : env.validateScopesStep [CONTACTS_SCOPES.READWRITE] = .thrown t) :
    Ev.getClientCall ∉ (svcUpdateContact env p).2 ∧ Ev.apiCall ∉ (svcUpdateContact env p).2 := by
  unfold svcUpdateContact
  cases hp : strAbsent p.resourceName || p.contact.isNone <;> simp [h]

theorem svcDeleteContact_validate_fail (env : SvcEnv) (p : DeleteContactParams)
    (t : Thrown) (h : env.validateScopesStep [CONTACTS_SCOPES.READWRITE] = .thrown t) :
    Ev.getClientCall ∉ (svcDeleteContact env p).2 ∧ Ev.apiCall ∉ (svcDeleteContact env p).2 := by
  unfold svcDeleteContact
  cases hp : strAbsent p.resourceName <;> simp [h]

theorem getClient_postconditions (now margin : Nat) (store : Option TokenRecord)
    (exch : RefreshOutcome) (required : List String) (tok : TokenRecord)
    (h : getClient now margin store exch required = .ok tok) :
    ∃ t0 r, store = some t0 ∧ ensureFresh now margin exch t0 = .ok r ∧
      r.record = tok ∧ validateScopeSet tok.scopes required = .ok := by
  unfold getClient at h
  split at h
  · exact absurd h (by simp)
  · rename_i t0
    split at h
    · exact absurd h (by simp)
    · rename_i r he
      split at h
      · exact absurd h (by simp)
      · rename_i hv
        simp only [Except.ok.injEq] at h
        exact ⟨t0, r, rfl, he, h, h ▸ hv⟩

/-- C4: in every contacts operation scope validation comes before client
construction, which comes before the provider call (every possible trace is
a prefix of validate-getClient-apiCall); if the scope validation step fails
then the authenticated client is never constructed and no provider call is
made (the getClientCall and apiCall events are absent from the trace); and
the authenticated-client factory only ever hands the builder a token that
came out of ensureFresh (so post-refresh, never stale-expired) and that
passed scope validation. -/
theorem scope_validation_precedes_client (env : SvcEnv) :
    (∀ (p1 : GetContactsParams) (p2 : CreateContactParams) (p3 : UpdateContactParams)
        (p4 : DeleteContactParams) (p5 : SearchContactsParams),
        traceShape [CONTACTS_SCOPES.READONLY] (svcGetContacts env p1).2 ∧
        traceShape [CONTACTS_SCOPES.READONLY] (svcSearchContacts env p5).2 ∧
        traceShape [CONTACTS_SCOPES.READWRITE] (svcCreateContact env p2).2 ∧
        traceShape [CONTACTS_SCOPES.READWRITE] (svcUpdateContact env p3).2 ∧
        traceShape [CONTACTS_SCOPES.READWRITE] (svcDeleteContact env p4).2) ∧
    (∀ (p : GetContactsParams) t,
        env.validateScopesStep [CONTACTS_SCOPES.READONLY] = .thrown t →
        Ev.getClientCall ∉ (svcGetContacts env p).2 ∧
        Ev.apiCall ∉ (svcGetContacts env p).2) ∧
    (∀ (p : SearchContactsParams) t,
        env.validateScopesStep [CONTACTS_SCOPES.READONLY] = .thrown t →
        Ev.getClientCall ∉ (svcSearchContacts env p).2 ∧
        Ev.apiCall ∉ (svcSearchContacts env p).2) ∧
    (∀ (p : CreateContactParams) t,
        env.validateScopesStep [CONTACTS_SCOPES.READWRITE] = .thrown t →
        Ev.getClientCall ∉ (svcCreateContact env p).2 ∧
        Ev.apiCall ∉ (svcCreateContact env p).2) ∧
    (∀ (p : UpdateContactParams) t,
        env.validateScopesStep [CONTACTS_SCOPES.READWRITE] = .thrown t →
        Ev.getClientCall ∉ (svcUpdateContact env p).2 ∧
        Ev.apiCall ∉ (svcUpdateContact env p).2) ∧
    (∀ (p : DeleteContactParams) t,
        env.validateScopesStep [CONTACTS_SCOPES.READWRITE] = .thrown t →
        Ev.getClientCall ∉ (svcDeleteContact env p).2 ∧
        Ev.apiCall ∉ (svcDeleteContact env p).2) ∧
    (∀ (now margin : Nat) (store : Option TokenRecord) (exch : RefreshOutcome)
        (required : List String) (tok : TokenRecord),
        getClient now margin store exch required = .ok tok →
        ∃ t0 r, store = some t0 ∧ ensureFresh now margin exch t0 = .ok r ∧
          r.record = tok ∧ validateScopeSet tok.scopes required = .ok) :=
  ⟨fun p1 p2 p3 p4 p5 =>
     ⟨svcGetContacts_trace env p1, svcSearchContacts_trace env p5,
      svcCreateContact_trace env p2, svcUpdateContact_trace env p3,
      svcDeleteContact_trace env p4⟩,
   fun p t h => svcGetContacts_validate_fail env p t h,
   fun p t h => svcSearchContacts_validate_fail env p t h,
   fun p t h => svcCreateContact_validate_fail env p t h,
   fun p t h => svcUpdateContact_validate_fail env p t h,
   fun p t h => svcDeleteContact_validate_fail env p t h,
   fun now margin store exch required tok h =>
     getClient_postconditions now margin store exch required tok h⟩

/-- Witness for C4 at concrete inputs: with the scope-validation step throwing,
getContacts neither constructs a client nor calls the provider; and a concrete
successful factory run is traced back through ensureFresh and a passing scope
validation. -/
theorem scope_validation_precedes_client_witness :
    (Ev.getClientCall ∉ (svcGetContacts envValidateThrows pGetOk).2 ∧
     Ev.apiCall ∉ (svcGetContacts envValidateThrows pGetOk).2) ∧
    (∃ t0 r, some sampleToken = some t0 ∧ ensureFresh 100 60 .rejected t0 = .ok r ∧
       r.record = sampleToken ∧
       validateScopeSet sampleToken.scopes [CONTACTS_SCOPES.READONLY] = .ok) :=
  ⟨(scope_validation_precedes_client envValidateThrows).2.1 pGetOk .otherValue rfl,
   (scope_validation_precedes_client envValidateThrows).2.2.2.2.2.2
     100 60 (some sampleToken) .rejected [CONTACTS_SCOPES.READONLY] sampleToken rfl⟩

/- ## C1: error normalization at the service boundary -/

theorem svcGetContacts_norm (env : SvcEnv) (p : GetContactsParams) :
    ∀ e, (svcGetContacts env p).1 = .error e → e.isNorm = true := by
  unfold svcGetContacts
  intro e
  repeat' split
  all_goals intro he
  all_goals first
    | (injection he with he2; subst he2; rfl)
    | (exact absurd he (by simp))

theorem svcSearchContacts_norm (env : SvcEnv) (p : SearchContactsParams) :
    ∀ e, (svcSearchContacts env p).1 = .error e → e.isNorm = true := by
  unfold svcSearchContacts
  intro e
  repeat' split
  all_goals intro he
  all_goals first
    | (injection he with he2; subst he2; rfl)
    | (exact absurd he (by simp))

theorem svcCreateContact_norm (env : SvcEnv) (p : CreateContactParams) :
    ∀ e, (svcCreateContact env p).1 = .error e → e.isNorm = true := by
  unfold svcCreateContact
  intro e
  repeat' split
  all_goals intro he
  all_goals first
    | (injection he with he2; subst he2; rfl)
    | (exact absurd he (by simp))

theorem svcUpdateContact_norm (env : SvcEnv) (p : UpdateContactParams) :
    ∀ e, (svcUpdateContact env p).1 = .error e → e.isNorm = true := by
  unfold svcUpdateContact
  intro e
  repeat' split
  all_goals intro he
  all_goals first
    | (injection he with he2; subst he2; rfl)
    | (exact absurd he (by simp))

theorem svcDeleteContact_norm (env : SvcEnv) (p : DeleteContactParams) :
    ∀ e, (svcDeleteContact env p).1 = .error e → e.isNorm = true := by
  unfold svcDeleteContact
  intro e
  repeat' split
  all_goals intro he
  all_goals first
    | (injection he with he2; subst he2; rfl)
    | (exact absurd he (by simp))

/-- C1 counterexample: a failure raised during the getContacts operation (the
personFields presence check) crosses the service boundary with code
INVALID_PARAMS, which is not one of the seven kinds of the closed taxonomy. -/
theorem contacts_error_taxonomy_counterexample :
    (svcGetContacts envAllOk pMissingPersonFields).1 =
      .error (.norm { message := "Missing required parameter: personFields",
                      code := "INVALID_PARAMS",
                      details := some "Specify the fields to retrieve (e.g. \"names,emailAddresses\")" }) ∧
    sevenKindNames.contains "INVALID_PARAMS" = false :=
  ⟨rfl, rfl⟩

/-- C1 (amended): every failure raised during any of the five contacts
operations crosses the service boundary as the single ContactsError shape —
no raw provider-specific thrown value escapes the operations unnormalized —
though its code field is a free-form string not restricted to the seven-kind
taxonomy. -/
theorem contacts_ops_normalized_errors (env : SvcEnv) :
    (∀ (p : GetContactsParams) e, (svcGetContacts env p).1 = .error e → e.isNorm = true) ∧
    (∀ (p : SearchContactsParams) e, (svcSearchContacts env p).1 = .error e → e.isNorm = true) ∧
    (∀ (p : CreateContactParams) e, (svcCreateContact env p).1 = .error e → e.isNorm = true) ∧
    (∀ (p : UpdateContactParams) e, (svcUpdateContact env p).1 = .error e → e.isNorm = true) ∧
    (∀ (p : DeleteContactParams) e, (svcDeleteContact env p).1 = .error e → e.isNorm = true) :=
  ⟨fun p => svcGetContacts_norm env p,
   fun p => svcSearchContacts_norm env p,
   fun p => svcCreateContact_norm env p,
   fun p => svcUpdateContact_norm env p,
   fun p => svcDeleteContact_norm env p⟩

/-- Witness for C1 (amended) at a concrete input: a network-level Error thrown
by the provider call escapes getContacts as a normalized ContactsError. -/
theorem contacts_ops_normalized_errors_witness :
    (SvcEscape.norm { message := "Failed to retrieve contacts: socket hang up",
                      code := "UNKNOWN_API_ERROR", details := none }).isNorm = true :=
  (contacts_ops_normalized_errors envApiThrows).1 pGetOk
    (.norm { message := "Failed to retrieve contacts: socket hang up",
             code := "UNKNOWN_API_ERROR", details := none }) rfl

/- ## C5: incomplete create/update responses -/

/-- C5: when the provider reports success but omits the created (resp.
updated) resource identifier, createContact and updateContact do fail rather
than return a partial success — but the error that escapes carries the generic
code UNKNOWN_API_ERROR with the incomplete-response details dropped, because
the CREATE_ERROR / UPDATE_ERROR ContactsError raised inside the try block is
re-caught by the operation's own catch-all and re-wrapped by
handleContactError's instanceof-Error branch. -/
theorem create_update_incomplete_response_behavior :
    (svcCreateContact envCreateIncomplete pCreateOk).1 =
      .error (.norm { message := "Failed to create contact: Failed to create contact",
                      code := "UNKNOWN_API_ERROR", details := none }) ∧
    (svcUpdateContact envCreateIncomplete pUpdateOk).1 =
      .error (.norm { message := "Failed to update contact: Failed to update contact",
                      code := "UNKNOWN_API_ERROR", details := none }) :=
  ⟨rfl, rfl⟩

/- ## C6: handler parameter validation -/

/-- A handler outcome that failed with an invalid-parameters error while
performing no observable work: no token renewal, no scope validation, no
client construction and no provider call. -/
def failsInvalidParams {α : Type} : Except McpError α × List Ev → Prop
  | (.error e, tr) => e.code = .invalidParams ∧ tr = []
  | (.ok _, _) => False

theorem handleGetContacts_params (env : HandlerEnv) (p : GetContactsParams)
    (h : strAbsent p.email = true ∨ strAbsent p.personFields = true) :
    failsInvalidParams (handleGetContacts env p) := by
  unfold handleGetContacts
  rcases h with h | h
  · simp [h, failsInvalidParams, emailRequiredErr]
  · cases he : strAbsent p.email
    · cases hv : env.emailValid (p.email.getD "")
      · simp [he, hv, failsInvalidParams, invalidEmailErr]
      · simp [he, hv, h, failsInvalidParams]
    · simp [he, failsInvalidParams, emailRequiredErr]

theorem handleCreateContact_params (env : HandlerEnv) (p : CreateContactParams)
    (h : strAbsent p.email = true ∨ p.contact = none) :
    failsInvalidParams (handleCreateContact env p) := by
  unfold handleCreateContact
  rcases h with h | h
  · simp [h, failsInvalidParams, emailRequiredErr]
  · cases he : strAbsent p.email
    · cases hv : env.emailValid (p.email.getD "")
      · simp [he, hv, failsInvalidParams, invalidEmailErr]
      · simp [he, hv, h, failsInvalidParams]
    · simp [he, failsInvalidParams, emailRequiredErr]

theorem handleUpdateContact_params (env : HandlerEnv) (p : UpdateContactParams)
    (h : strAbsent p.email = true ∨ strAbsent p.resourceName = true ∨ p.contact = none) :
    failsInvalidParams (handleUpdateContact env p) := by
  unfold handleUpdateContact
  rcases h with h | h | h
  · simp [h, failsInvalidParams, emailRequiredErr]
  · cases he : strAbsent p.email
    · cases hv : env.emailValid (p.email.getD "")
      · simp [he, hv, failsInvalidParams, invalidEmailErr]
      · simp [he, hv, h, failsInvalidParams]
    · simp [he, failsInvalidParams, emailRequiredErr]
  · cases he : strAbsent p.email
    · cases hv : env.emailValid (p.email.getD "")
      · simp [he, hv, failsInvalidParams, invalidEmailErr]
      · cases hr : strAbsent p.resourceName <;>
          simp [he, hv, hr, h, failsInvalidParams]
    · simp [he, failsInvalidParams, emailRequiredErr]

theorem handleDeleteContact_params (env : HandlerEnv) (p : DeleteContactParams)
    (h : strAbsent p.email = true ∨ strAbsent p.resourceName = true) :
    failsInvalidParams (handleDeleteContact env p) := by
  unfold handleDeleteContact
  rcases h with h | h
  · simp [h, failsInvalidParams, emailRequiredErr]
  · cases he : strAbsent p.email
    · cases hv : env.emailValid (p.email.getD "")
      · simp [he, hv, failsInvalidParams, invalidEmailErr]
      · simp [he, hv, h, failsInvalidParams]
    · simp [he, failsInvalidParams, emailRequiredErr]

theorem handleSearchContacts_params (env : HandlerEnv) (p : SearchContactsParams)
    (h : strAbsent p.email = true ∨ strAbsent p.query = true) :
    failsInvalidParams (handleSearchContacts env p) := by
  unfold handleSearchContacts
  rcases h with h | h
  · simp [h, failsInvalidParams, emailRequiredErr]
  · cases he : strAbsent p.email
    · cases hv : env.emailValid (p.email.getD "")
      · simp [he, hv, failsInvalidParams, invalidEmailErr]
      · simp [he, hv, h, failsInvalidParams]
    · simp [he, failsInvalidParams, emailRequiredErr]

/-- C6: for every handler and every input in which one of its required
parameters is absent (personFields for getContacts, contact for createContact,
resourceName or contact for updateContact, resourceName for deleteContact,
query for searchContacts, email for every handler), the handler fails with an
invalid-parameters error and performs no token renewal, no scope validation
and no provider call. -/
theorem handlers_param_validation (env : HandlerEnv) :
    (∀ p : GetContactsParams,
        strAbsent p.email = true ∨ strAbsent p.personFields = true →
        failsInvalidParams (handleGetContacts env p)) ∧
    (∀ p : CreateContactParams,
        strAbsent p.email = true ∨ p.contact = none →
        failsInvalidParams (handleCreateContact env p)) ∧
    (∀ p : UpdateContactParams,
        strAbsent p.email = true ∨ strAbsent p.resourceName = true ∨ p.contact = none →
        failsInvalidParams (handleUpdateContact env p)) ∧
    (∀ p : DeleteContactParams,
        strAbsent p.email = true ∨ strAbsent p.resourceName = true →
        failsInvalidParams (handleDeleteContact env p)) ∧
    (∀ p : SearchContactsParams,
        strAbsent p.email = true ∨ strAbsent p.query = true →
        failsInvalidParams (handleSearchContacts env p)) :=
  ⟨fun p h => handleGetContacts_params env p h,
   fun p h => handleCreateContact_params env p h,
   fun p h => handleUpdateContact_params env p h,
   fun p h => handleDeleteContact_params env p h,
   fun p h => handleSearchContacts_params env p h⟩

/-- A sample handler environment: syntactically valid email, fresh token,
benign collaborators. -/
def handlerEnvSample : HandlerEnv :=
  { emailValid := fun _ => true, renewal := .fresh, svc := envAllOk }

/-- getContacts parameters with the email parameter absent. -/
def pGetNoEmail : GetContactsParams :=
  { email := none, pageSize := none, pageToken := none,
    personFields := some "names" }

/-- Witness for C6 at a concrete input: a getContacts call without an email
fails with invalid parameters and produces no events. -/
theorem handlers_param_validation_witness :
    failsInvalidParams (handleGetContacts handlerEnvSample pGetNoEmail) :=
  (handlers_param_validation handlerEnvSample).1 pGetNoEmail (Or.inl rfl)

/- ## C8: per-account refresh deduplication -/

/-- Modelled from the spec: the shared state of the per-account refresh
deduplication (spec 4.2, 5 and the design note of section 9): the accounts
with an in-flight refresh exchange, the callers awaiting an in-flight result,
the per-caller observed token records, and the log of refresh exchanges
issued.  The AccountManager implementing this is not among the sources. -/
structure DedupState where
  inflight : List String
  waiting : List (String × Nat)
  results : List (Nat × TokenRecord)
  exchanges : List String
deriving DecidableEq, Repr

/-- The initial deduplication state: nothing in flight. -/
def initState : DedupState :=
  { inflight := [], waiting := [], results := [], exchanges := [] }

/-- Modelled from the spec: one caller arriving at ensureFresh on the
cooperative event loop (atomic up to its first await).  A fresh token is
returned immediately; an expiring token either attaches to the account's
in-flight refresh or — when none is in flight — issues the single refresh
exchange for that account and registers as awaiting it. -/
def arrive (now margin : Nat) (store : String → Option TokenRecord)
    (s : DedupState) (caller : Nat) (acct : String) : DedupState :=
  match store acct with
  | none => s
  | some t =>
      if expiring now margin t then
        if s.inflight.contains acct then
          { s with waiting := (acct, caller) :: s.waiting }
        else
          { s with inflight := acct :: s.inflight,
                   exchanges := acct :: s.exchanges,
                   waiting := (acct, caller) :: s.waiting }
      else
        { s with results := (caller, t) :: s.results }

/-- Modelled from the spec: completion of the in-flight refresh exchange for
an account: every caller awaiting that account observes the same resulting
record, and the in-flight entry is cleared so future expiries trigger a new
refresh. -/
def completeRefresh (s : DedupState) (acct : String) (newTok : TokenRecord) :
    DedupState :=
  { inflight := s.inflight.filter (fun a => !(a == acct)),
    waiting := s.waiting.filter (fun w => !(w.1 == acct)),
    results :=
      (s.waiting.filter (fun w => w.1 == acct)).map (fun w => (w.2, newTok)) ++ s.results,
    exchanges := s.exchanges }

/-- A sequence of caller arrivals, all for one account, before the refresh
completes. -/
def arriveAll (now margin : Nat) (store : String → Option TokenRecord)
    (s : DedupState) (callers : List Nat) (acct : String) : DedupState :=
  callers.foldl (fun st c => arrive now margin store st c acct) s

theorem arriveAll_inflight (now margin : Nat) (store : String → Option TokenRecord)
    (acct : String) (t : TokenRecord) (hstore : store acct = some t)
    (hexp : expiring now margin t = true) :
    ∀ (cs : List Nat) (s : DedupState), s.inflight.contains acct = true →
      arriveAll now margin store s cs acct =
        { s with waiting := (cs.map (fun c => (acct, c))).reverse ++ s.waiting } := by
  intro cs
  induction cs with
  | nil => intro s hs; simp [arriveAll]
  | cons c cs ih =>
      intro s hs
      have hsm : acct ∈ s.inflight := by simpa using hs
      have harr : arrive now margin store s c acct =
          { s with waiting := (acct, c) :: s.waiting } := by
        simp [arrive, hstore, hexp, hsm]
      have hstep : arriveAll now margin store s (c :: cs) acct =
          arriveAll now margin store { s with waiting := (acct, c) :: s.waiting } cs acct := by
        unfold arriveAll
        simp only [List.foldl_cons]
        rw [harr]
      rw [hstep, ih { s with waiting := (acct, c) :: s.waiting } (by simpa using hs)]
      simp

theorem refresh_dedup_single (now margin : Nat) (store : String → Option TokenRecord)
    (acct : String) (t newTok : TokenRecord) (c : Nat) (cs : List Nat)
    (hstore : store acct = some t) (hexp : expiring now margin t = true) :
    (completeRefresh (arriveAll now margin store initState (c :: cs) acct) acct newTok).exchanges
        = [acct] ∧
    (∀ k, k ∈ c :: cs →
      (k, newTok) ∈
        (completeRefresh (arriveAll now margin store initState (c :: cs) acct) acct newTok).results) ∧
    (∀ p, p ∈ (completeRefresh (arriveAll now margin store initState (c :: cs) acct) acct newTok).results →
      p.2 = newTok) := by
  have h1 : arrive now margin store initState c acct =
      { inflight := [acct], waiting := [(acct, c)], results := [], exchanges := [acct] } := by
    simp [arrive, initState, hstore, hexp]
  have h2 : arriveAll now margin store initState (c :: cs) acct =
      { inflight := [acct], waiting := (cs.map (fun k => (acct, k))).reverse ++ [(acct, c)],
        results := [], exchanges := [acct] } := by
    have hstep : arriveAll now margin store initState (c :: cs) acct =
        arriveAll now margin store
          { inflight := [acct], waiting := [(acct, c)], results := [], exchanges := [acct] }
          cs acct := by
      unfold arriveAll
      simp only [List.foldl_cons]
      rw [h1]
    rw [hstep, arriveAll_inflight now margin store acct t hstore hexp cs _ (by simp)]
  rw [h2]
  unfold completeRefresh
  refine ⟨rfl, ?_, ?_⟩
  · intro k hk
    simp only [List.filter_append, List.map_append, List.append_nil]
    rcases List.mem_cons.mp hk with hk | hk
    · subst hk
      apply List.mem_append_right
      simp
    · apply List.mem_append_left
      simp only [List.filter_reverse, List.map_reverse, List.mem_reverse]
      refine List.mem_map.mpr ⟨(acct, k), ?_, rfl⟩
      refine List.mem_filter.mpr ⟨?_, by simp⟩
      exact List.mem_map.mpr ⟨k, hk, rfl⟩
  · intro p hp
    simp only [List.append_nil] at hp
    rcases List.mem_map.mp hp with ⟨w, _, hw⟩
    rw [← hw]

theorem arrive_no_cross_blocking (now margin : Nat) (store : String → Option TokenRecord)
    (s : DedupState) (caller : Nat) (a b : String) (t : TokenRecord)
    (hne : b ≠ a) (hstore : store b = some t)
    (hnofl : s.inflight.contains b = false) :
    (expiring now margin t = true →
      (arrive now margin store { s with inflight := a :: s.inflight } caller b).exchanges
          = b :: s.exchanges ∧
      (b, caller) ∈ (arrive now margin store { s with inflight := a :: s.inflight } caller b).waiting) ∧
    (expiring now margin t = false →
      (arrive now margin store { s with inflight := a :: s.inflight } caller b).results
          = (caller, t) :: s.results) := by
  have hbm : b ∉ s.inflight := by simpa using hnofl
  constructor
  · intro hexp
    constructor
    · simp [arrive, hstore, hexp, hne, hbm]
    · simp [arrive, hstore, hexp, hne, hbm]
  · intro hexp
    simp [arrive, hstore, hexp]

/-- C8: in the cooperative-scheduling model of the per-account refresh
deduplication, (i) for any number N ≥ 1 of concurrent ensureFresh callers for
the same account with an expiring token, all arriving before the refresh
completes, exactly one refresh exchange is issued, every caller has a
recorded result, and every recorded result is the same new token record; and
(ii) a caller arriving for a different account is never blocked by another
account's in-flight refresh: with its own token expiring it issues its own
exchange immediately, and with a fresh token it completes immediately. -/
theorem ensureFresh_dedup_concurrency :
    (∀ (now margin : Nat) (store : String → Option TokenRecord) (acct : String)
        (t newTok : TokenRecord) (c : Nat) (cs : List Nat),
        store acct = some t → expiring now margin t = true →
        (completeRefresh (arriveAll now margin store initState (c :: cs) acct) acct newTok).exchanges
            = [acct] ∧
        (∀ k, k ∈ c :: cs →
          (k, newTok) ∈
            (completeRefresh (arriveAll now margin store initState (c :: cs) acct) acct newTok).results) ∧
        (∀ p, p ∈ (completeRefresh (arriveAll now margin store initState (c :: cs) acct) acct newTok).results →
          p.2 = newTok)) ∧
    (∀ (now margin : Nat) (store : String → Option TokenRecord) (s : DedupState)
        (caller : Nat) (a b : String) (t : TokenRecord),
        b ≠ a → store b = some t → s.inflight.contains b = false →
        (expiring now margin t = true →
          (arrive now margin store { s with inflight := a :: s.inflight } caller b).exchanges
              = b :: s.exchanges ∧
          (b, caller) ∈ (arrive now margin store { s with inflight := a :: s.inflight } caller b).waiting) ∧
        (expiring now margin t = false →
          (arrive now margin store { s with inflight := a :: s.inflight } caller b).results
              = (caller, t) :: s.results)) :=
  ⟨fun now margin store acct t newTok c cs h1 h2 =>
     refresh_dedup_single now margin store acct t newTok c cs h1 h2,
   fun now margin store s caller a b t h1 h2 h3 =>
     arrive_no_cross_blocking now margin store s caller a b t h1 h2 h3⟩

/-- A token about to expire, for concrete deduplication runs. -/
def expiringSampleToken : TokenRecord :=
  { accessToken := "old-access", refreshToken := "refresh-0",
    scopes := [CONTACTS_SCOPES.READONLY], tokenType := "Bearer",
    expiry := 100, lastRefresh := 0 }

/-- The record produced by the single refresh exchange in the witness run. -/
def refreshedSampleToken : TokenRecord :=
  { expiringSampleToken with accessToken := "new-access", expiry := 4000 }

/-- A store holding the expiring token for one account. -/
def storeSample : String → Option TokenRecord :=
  fun a => if a = "alice@example.com" then some expiringSampleToken else none

/-- Witness for C8 at a concrete run: three concurrent callers for the same
account with an expiring token produce exactly one refresh exchange, and
every caller observes the same refreshed record. -/
theorem ensureFresh_dedup_concurrency_witness :
    (completeRefresh (arriveAll 90 60 storeSample initState [1, 2, 3] "alice@example.com")
        "alice@example.com" refreshedSampleToken).exchanges = ["alice@example.com"] ∧
    (∀ k, k ∈ [1, 2, 3] →
      (k, refreshedSampleToken) ∈
        (completeRefresh (arriveAll 90 60 storeSample initState [1, 2, 3] "alice@example.com")
          "alice@example.com" refreshedSampleToken).results) ∧
    (∀ p, p ∈ (completeRefresh (arriveAll 90 60 storeSample initState [1, 2, 3] "alice@example.com")
          "alice@example.com" refreshedSampleToken).results →
      p.2 = refreshedSampleToken) :=
  ensureFresh_dedup_concurrency.1 90 60 storeSample "alice@example.com"
    expiringSampleToken refreshedSampleToken 1 [2, 3] rfl rfl

end GWMcp
